import Mathlib

/-!
Verification of the authentication and session-validation core of the
ai-fitness repository: the JWT token codec (`src/lib/auth.ts`), the bcrypt
credential hasher wrappers, the route-protection middleware (`middleware.ts`)
and the registration endpoint (`src/app/api/auth/register/route.ts`).

The development is a shallow embedding: each TypeScript function is
translated into an executable Lean definition.  Effects (database lookups,
the bcrypt RNG salt, the clock, environment variables) are made explicit as
parameters.  The third-party `jsonwebtoken` and `bcryptjs` libraries are not
part of the repository; they are modelled by their documented contracts, with
their cryptographic primitives idealized as collision-free (an unforgeable
MAC, an injective salted digest).
-/

namespace AiFitness

/-- Decoded token payload, `JWTPayload` in `src/lib/auth.ts`:
`{ userId, email, name, iat?, exp? }`. -/
structure JWTPayload where
  userId : String
  email : String
  name : String
  iat : Option Nat := none
  exp : Option Nat := none
deriving DecidableEq, Repr

/-- JavaScript truthiness of a `string | undefined` value:
`undefined` and the empty string are falsy. -/
def truthy : Option String → Bool
  | none => false
  | some s => s != ""

/-- JavaScript `s.startsWith(p)`, computed on the character lists. -/
def jsStartsWith (s p : String) : Bool := p.data.isPrefixOf s.data

/-- JavaScript `s.includes(c)` for a single character, computed on the
character list. -/
def jsIncludesChar (s : String) (c : Char) : Bool := s.data.contains c

/-! ## Request Gate (middleware.ts) -/

/-- The possible results of the middleware, mirroring the `NextResponse`
values it constructs:
* `next`: `NextResponse.next()`, forward unchanged;
* `nextWithHeaders`: forward with the `x-user-id`, `x-user-email`,
  `x-user-name` request headers attached;
* `unauthorized e`: `NextResponse.json({ error: e }, { status: 401 })`;
* `redirect loc cb del`: an HTTP redirect to `loc`, with `cb` the value of
  the `callbackUrl` query parameter when one is set, and `del` true when the
  response also deletes the `auth-token` cookie. -/
inductive GateResponse where
  | next : GateResponse
  | nextWithHeaders (userId email name : String) : GateResponse
  | unauthorized (error : String) : GateResponse
  | redirect (location : String) (callbackUrl : Option String)
      (deletesAuthCookie : Bool) : GateResponse
deriving DecidableEq, Repr

/-- `protectedRoutes` from middleware.ts. -/
def protectedRoutes : List String :=
  ["/generate-program", "/profile", "/api/ai", "/api/programs", "/api/user",
   "/api/auth/me"]

/-- `publicRoutes` from middleware.ts. -/
def publicRoutes : List String :=
  ["/", "/api/auth/login", "/api/auth/register", "/api/auth/logout",
   "/api/auth/me", "/auth/login", "/auth/register"]

/-- `protectedApiRoutes` from middleware.ts. -/
def protectedApiRoutes : List String :=
  ["/api/ai", "/api/programs", "/api/user"]

/-- An inbound request as the middleware sees it: its `nextUrl.pathname` and
the value of the `auth-token` cookie (`none` when the cookie is absent). -/
structure GateRequest where
  pathname : String
  authTokenCookie : Option String

/-- The `middleware` function of middleware.ts, parameterized by the token
verification function it calls (`verifyToken` from `src/lib/auth.ts`). -/
def middleware (verify : String → Option JWTPayload) (request : GateRequest) :
    GateResponse :=
  let pathname := request.pathname
  if jsStartsWith pathname "/_next" || jsStartsWith pathname "/static" ||
      jsIncludesChar pathname '.' || jsStartsWith pathname "/favicon.ico" then
    GateResponse.next
  else
    let isPublicRoute := publicRoutes.any fun route =>
      pathname == route || jsStartsWith pathname route
    let isProtectedRoute := protectedRoutes.any fun route =>
      jsStartsWith pathname route
    let isProtectedApiRoute := protectedApiRoutes.any fun route =>
      jsStartsWith pathname route
    if isPublicRoute || pathname == "/api/auth/me" then
      GateResponse.next
    else
      let token := request.authTokenCookie
      if !truthy token && (isProtectedRoute || isProtectedApiRoute) then
        if isProtectedApiRoute then
          GateResponse.unauthorized "Authentication required"
        else
          GateResponse.redirect "/auth/login" (some pathname) false
      else
        match token with
        | none => GateResponse.next
        | some tok =>
          if tok == "" then GateResponse.next
          else
            match verify tok with
            | none =>
              if isProtectedRoute || isProtectedApiRoute then
                if isProtectedApiRoute then
                  GateResponse.unauthorized "Invalid or expired token"
                else
                  GateResponse.redirect "/auth/login" none true
              else GateResponse.next
            | some payload =>
              if isProtectedApiRoute then
                GateResponse.nextWithHeaders payload.userId payload.email
                  payload.name
              else if jsStartsWith pathname "/auth/login" ||
                  jsStartsWith pathname "/sign-up" then
                GateResponse.redirect "/profile" none false
              else GateResponse.next

/-- C1: the claim says a request to `/api/programs` with no `auth-token`
cookie is rejected with 401 `Authentication required`.  The code instead
forwards it: `publicRoutes` contains `"/"` and the public-route test uses
`startsWith`, so every pathname is classified public and the gate
short-circuits to `NextResponse.next()` before the missing-cookie branch can
run, whatever the verifier does. -/
theorem middleware_no_cookie_protected_api_forwards
    (verify : String → Option JWTPayload) :
    middleware verify { pathname := "/api/programs", authTokenCookie := none }
      = GateResponse.next := rfl

/-- C2: the claim says a request to `/api/programs` whose cookie fails
verification is rejected with 401 `Invalid or expired token`.  The code
forwards it without even reading the cookie, because the `"/"` entry of
`publicRoutes` classifies every path as public; this holds for every
verifier, in particular one that rejects the presented token. -/
theorem middleware_invalid_token_protected_api_forwards
    (verify : String → Option JWTPayload) :
    middleware verify
      { pathname := "/api/programs", authTokenCookie := some "expiredtoken" }
      = GateResponse.next := rfl

/-- C3: the claim says an authenticated request to `/auth/login` is
redirected to `/profile`.  The code forwards it to the login page instead:
`/auth/login` is itself listed in `publicRoutes`, and the public-route
short-circuit runs before any token is read, so the auth-page redirect
branch further down is unreachable for `/auth/login` — for every verifier,
including one that accepts the presented token. -/
theorem middleware_authed_login_forwards
    (verify : String → Option JWTPayload) :
    middleware verify
      { pathname := "/auth/login", authTokenCookie := some "validtoken" }
      = GateResponse.next := rfl

/-- C9: the claim says an unauthenticated request to `/profile` is
redirected to `/auth/login` with `callbackUrl=/profile`.  The code forwards
it: the `"/"` entry of `publicRoutes` makes `/profile` public, so neither
reject branch is reached. -/
theorem middleware_unauth_profile_forwards
    (verify : String → Option JWTPayload) :
    middleware verify { pathname := "/profile", authTokenCookie := none }
      = GateResponse.next := rfl

/-- C10: any request whose path contains a `.` character or starts with
`/_next` or `/static` is forwarded by the static-file bypass without the
cookie being read or verified, for every verifier and every cookie state —
even when the path also has a protected API prefix. -/
theorem middleware_static_bypass (verify : String → Option JWTPayload)
    (request : GateRequest)
    (h : jsIncludesChar request.pathname '.' = true ∨
      jsStartsWith request.pathname "/_next" = true ∨
      jsStartsWith request.pathname "/static" = true) :
    middleware verify request = GateResponse.next := by
  unfold middleware
  rcases h with h | h | h <;> simp [h]

/-- Witness for C10 at the protected-prefix path `/api/programs/x.json`,
carried with a cookie and a verifier that would accept it. -/
theorem middleware_static_bypass_witness :
    jsIncludesChar "/api/programs/x.json" '.' = true ∧
    middleware (fun _ => some { userId := "u", email := "e", name := "n" })
      { pathname := "/api/programs/x.json", authTokenCookie := some "tok" }
      = GateResponse.next :=
  ⟨by decide,
   middleware_static_bypass _ _ (Or.inl (by decide))⟩

/-! ## Token Codec (src/lib/auth.ts) -/

/-- The `expiresIn: '7d'` policy of `generateToken`, in seconds. -/
def sevenDaysInSeconds : Nat := 7 * 24 * 60 * 60

/-- Input claims of `generateToken`: `Omit<JWTPayload, 'iat' | 'exp'>`. -/
structure Claims where
  userId : String
  email : String
  name : String
deriving DecidableEq, Repr

/-- Idealized HMAC signature over the serialized payload, modelling the
symmetric signature scheme of the jsonwebtoken library: represented by the
signed data itself, so it is collision-free in the secret and in every
signed field (an unforgeable MAC). -/
structure Signature where
  secret : String
  userId : String
  email : String
  name : String
  iat : Nat
  exp : Nat
deriving DecidableEq, Repr

/-- A decoded signed token: the claims, the issued-at and expiry timestamps,
and the signature over all of them. -/
structure SignedToken where
  userId : String
  email : String
  name : String
  iat : Nat
  exp : Nat
  sig : Signature
deriving DecidableEq, Repr

/-- A token string as the jsonwebtoken library sees it: either the
serialization of a signed token, or any other string, which fails to parse
(malformed). -/
inductive TokenString where
  | signed (t : SignedToken) : TokenString
  | malformed (s : String) : TokenString
deriving DecidableEq, Repr

/-- The error classes jsonwebtoken throws from `jwt.verify`. -/
inductive JwtError where
  | malformedToken : JwtError
  | invalidSignature : JwtError
  | tokenExpired : JwtError
deriving DecidableEq, Repr

/-- Modelled contract of `jwt.sign(payload, secret, { expiresIn })`: attach
`iat = now` and `exp = now + expiresIn` and sign everything with the
secret. -/
def jwtSign (payload : Claims) (secret : String) (expiresIn now : Nat) :
    TokenString :=
  TokenString.signed
    { userId := payload.userId, email := payload.email, name := payload.name,
      iat := now, exp := now + expiresIn,
      sig := { secret := secret, userId := payload.userId,
               email := payload.email, name := payload.name,
               iat := now, exp := now + expiresIn } }

/-- The signature the verifier recomputes for a parsed token `t` under a
given secret: the idealized MAC over the token's own payload and
timestamps. -/
def signatureOf (secret : String) (t : SignedToken) : Signature :=
  { secret := secret, userId := t.userId, email := t.email, name := t.name,
    iat := t.iat, exp := t.exp }

/-- Modelled contract of `jwt.verify(token, secret)` at clock time `now`:
throws (an `Except.error`) on a token that does not parse, a signature that
does not match the secret and payload, or an expiry at or before `now`;
otherwise returns the decoded payload. -/
def jwtVerify (token : TokenString) (secret : String) (now : Nat) :
    Except JwtError JWTPayload :=
  match token with
  | TokenString.malformed _ => Except.error JwtError.malformedToken
  | TokenString.signed t =>
    if t.sig ≠ signatureOf secret t then
      Except.error JwtError.invalidSignature
    else if t.exp ≤ now then
      Except.error JwtError.tokenExpired
    else
      Except.ok { userId := t.userId, email := t.email, name := t.name,
                  iat := some t.iat, exp := some t.exp }

/-- `generateToken` from src/lib/auth.ts: `jwt.sign(payload, JWT_SECRET,
{ expiresIn: '7d' })`, with the clock made explicit. -/
def generateToken (secret : String) (now : Nat) (payload : Claims) :
    TokenString :=
  jwtSign payload secret sevenDaysInSeconds now

/-- `verifyToken` from src/lib/auth.ts: `jwt.verify` wrapped in a
`try`/`catch` that maps every thrown error to `null`. -/
def verifyToken (secret : String) (now : Nat) (token : TokenString) :
    Option JWTPayload :=
  match jwtVerify token secret now with
  | Except.ok decoded => some decoded
  | Except.error _ => none

/-- The module-load guard of src/lib/auth.ts: read `JWT_SECRET` from the
environment and throw when it is undefined or empty (JS falsiness), so the
module only loads with a configured secret. -/
def loadAuthModule (envJwtSecret : Option String) : Except String String :=
  match envJwtSecret with
  | none =>
    Except.error
      "Please define the JWT_SECRET environment variable inside .env.local"
  | some s =>
    if s == "" then
      Except.error
        "Please define the JWT_SECRET environment variable inside .env.local"
    else
      Except.ok s

/-- C4: the round trip — verifying a freshly issued token with the same
secret at any clock time before the 7-day expiry yields the payload back,
with the issued claims intact. -/
theorem verifyToken_generateToken_roundtrip (secret : String) (c : Claims)
    (issuedAt now : Nat) (h : now < issuedAt + sevenDaysInSeconds) :
    verifyToken secret now (generateToken secret issuedAt c)
      = some { userId := c.userId, email := c.email, name := c.name,
               iat := some issuedAt,
               exp := some (issuedAt + sevenDaysInSeconds) } := by
  simp [verifyToken, generateToken, jwtSign, jwtVerify, signatureOf,
    Nat.not_le.mpr h]

/-- Witness for C4 at a concrete payload, secret and clock. -/
theorem verifyToken_generateToken_roundtrip_witness :
    (0 : Nat) < 0 + sevenDaysInSeconds ∧
    verifyToken "s" 0 (generateToken "s" 0
        { userId := "u", email := "e", name := "n" })
      = some { userId := "u", email := "e", name := "n", iat := some 0,
               exp := some (0 + sevenDaysInSeconds) } :=
  ⟨by decide,
   verifyToken_generateToken_roundtrip "s"
     { userId := "u", email := "e", name := "n" } 0 0 (by decide)⟩

/-- C5: `verifyToken` is a total function into an option type — the
`try`/`catch` maps every error `jwt.verify` throws (malformed token, bad
signature, elapsed expiry) to the sentinel `none` — and it returns `some`
payload only for a parseable token whose signature matches the configured
secret and whose expiry lies strictly after the current clock. -/
theorem verifyToken_total_sentinel (secret : String) (now : Nat)
    (token : TokenString) :
    (∀ e, jwtVerify token secret now = Except.error e →
      verifyToken secret now token = none)
    ∧ (∀ p, verifyToken secret now token = some p →
        ∃ t, token = TokenString.signed t
          ∧ t.sig = signatureOf secret t
          ∧ now < t.exp) := by
  constructor
  · intro e he
    simp [verifyToken, he]
  · intro p hp
    cases token with
    | malformed s => simp [verifyToken, jwtVerify] at hp
    | signed t =>
      refine ⟨t, rfl, ?_⟩
      by_cases hsig : t.sig = signatureOf secret t
      · refine ⟨hsig, ?_⟩
        by_cases hexp : t.exp ≤ now
        · simp [verifyToken, jwtVerify, hsig, hexp] at hp
        · exact Nat.lt_of_not_le hexp
      · simp [verifyToken, jwtVerify, hsig] at hp

/-- Witness for C5: the malformed case returns the sentinel, and a token
that verifies to `some` indeed has a matching signature and a live expiry. -/
theorem verifyToken_total_sentinel_witness :
    verifyToken "s" 5 (TokenString.malformed "garbage") = none
    ∧ ∃ t, generateToken "s" 0 { userId := "u", email := "e", name := "n" }
        = TokenString.signed t
      ∧ t.sig = signatureOf "s" t
      ∧ 5 < t.exp :=
  ⟨(verifyToken_total_sentinel "s" 5 (TokenString.malformed "garbage")).1
     JwtError.malformedToken rfl,
   (verifyToken_total_sentinel "s" 5 (generateToken "s" 0
       { userId := "u", email := "e", name := "n" })).2
     { userId := "u", email := "e", name := "n", iat := some 0,
       exp := some 604800 } (by rfl)⟩

/-- C8: the fail-fast guard — loading the auth module with no `JWT_SECRET`
in the environment throws, and whenever the module does load, the secret it
captured is the configured, non-empty environment value, so every later
`generateToken`/`verifyToken` call runs with a configured secret. -/
theorem jwt_secret_fail_fast (env : Option String) :
    (env = none → loadAuthModule env
      = Except.error
          "Please define the JWT_SECRET environment variable inside .env.local")
    ∧ (∀ secret, loadAuthModule env = Except.ok secret →
        env = some secret ∧ secret ≠ "") := by
  constructor
  · intro h
    subst h
    rfl
  · intro secret hok
    cases env with
    | none => simp [loadAuthModule] at hok
    | some s =>
      by_cases hs : s == ""
      · simp [loadAuthModule, hs] at hok
      · simp [loadAuthModule, hs] at hok
        subst hok
        exact ⟨rfl, by simpa using hs⟩

/-- Witness for C8: the missing-secret case aborts, and a configured secret
loads as itself. -/
theorem jwt_secret_fail_fast_witness :
    loadAuthModule none
      = Except.error
          "Please define the JWT_SECRET environment variable inside .env.local"
    ∧ (some "topsecret" = some "topsecret" ∧ "topsecret" ≠ "") :=
  ⟨(jwt_secret_fail_fast none).1 rfl,
   (jwt_secret_fail_fast (some "topsecret")).2 "topsecret" rfl⟩

/-! ## Credential Hasher (src/lib/auth.ts wrapping bcryptjs) -/

/-- Idealized bcrypt digest: the library's randomly salted one-way transform,
modelled as a collision-free function of the salt and the password (the
internals of the transform are outside the repository). -/
structure BcryptDigest where
  salt : Nat
  password : String
deriving DecidableEq, Repr

/-- A stored bcrypt hash: as the spec notes, it embeds the cost factor and
the salt alongside the digest. -/
structure BcryptHash where
  cost : Nat
  salt : Nat
  digest : BcryptDigest
deriving DecidableEq, Repr

/-- `hashPassword` from src/lib/auth.ts: `bcrypt.hash(password, 12)`, with
the salt drawn by the library's RNG made explicit as a parameter. -/
def hashPassword (salt : Nat) (password : String) : BcryptHash :=
  { cost := 12, salt := salt, digest := { salt := salt, password := password } }

/-- `comparePassword` from src/lib/auth.ts: `bcrypt.compare` recomputes the
digest using the salt embedded in the stored hash and compares. -/
def comparePassword (password : String) (hashed : BcryptHash) : Bool :=
  ({ salt := hashed.salt, password := password } : BcryptDigest)
    == hashed.digest

/-- C6: hashing then comparing the same password succeeds; two hashes of the
same password under distinct random salts are distinct strings; and
comparing a different password against a stored hash fails. -/
theorem bcrypt_roundtrip_salting (p p1 p2 : String) (s s1 s2 : Nat) :
    comparePassword p (hashPassword s p) = true
    ∧ (s1 ≠ s2 → hashPassword s1 p ≠ hashPassword s2 p)
    ∧ (p1 ≠ p2 → comparePassword p1 (hashPassword s p2) = false) := by
  refine ⟨by simp [comparePassword, hashPassword], ?_, ?_⟩
  · intro hne
    simp [hashPassword, BcryptHash.mk.injEq, hne]
  · intro hne
    simp [comparePassword, hashPassword, BcryptDigest.mk.injEq, hne]

/-- Witness for C6 at concrete passwords and salts. -/
theorem bcrypt_roundtrip_salting_witness :
    comparePassword "Abcdef12" (hashPassword 0 "Abcdef12") = true
    ∧ hashPassword 0 "Abcdef12" ≠ hashPassword 1 "Abcdef12"
    ∧ comparePassword "a" (hashPassword 0 "b") = false :=
  ⟨(bcrypt_roundtrip_salting "Abcdef12" "a" "b" 0 0 1).1,
   (bcrypt_roundtrip_salting "Abcdef12" "a" "b" 0 0 1).2.1 (by decide),
   (bcrypt_roundtrip_salting "Abcdef12" "a" "b" 0 0 1).2.2 (by decide)⟩

/-! ## Registration endpoint (src/app/api/auth/register/route.ts) -/

/-- JavaScript `s.toLowerCase()`, computed characterwise on the list
(ASCII). -/
def jsToLower (s : String) : String := String.mk (s.data.map Char.toLower)

/-- JavaScript `s.trim()`: strip whitespace from both ends. -/
def jsTrim (s : String) : String :=
  String.mk
    (((s.data.dropWhile Char.isWhitespace).reverse.dropWhile
        Char.isWhitespace).reverse)

/-- JavaScript `s.length`, as a character count. -/
def jsLength (s : String) : Nat := s.data.length

/-- The regex word-character class `\w`, i.e. `[A-Za-z0-9_]`. -/
def isWordChar (c : Char) : Bool := c.isAlpha || c.isDigit || c == '_'

/-- The separator class `[.-]` of the email regex. -/
def isSepChar (c : Char) : Bool := c == '.' || c == '-'

/-- Tail of the language of `\w+([.-]?\w+)*` after its first character:
every further character is a word character or a separator immediately
preceded by a word character, and the final character is a word
character. -/
def dottedRunAux (prev : Char) : List Char → Bool
  | [] => isWordChar prev
  | c :: rest =>
    (isWordChar c || (isSepChar c && isWordChar prev)) && dottedRunAux c rest

/-- The language of `\w+([.-]?\w+)*` (the local part of the email regex and
the leading part of its domain): nonempty, over word and separator
characters, starting and ending with a word character, with no two adjacent
separators. -/
def dottedRun : List Char → Bool
  | [] => false
  | c :: rest => isWordChar c && dottedRunAux c rest

/-- The language of `(\.\w{2,3})+` with explicit fuel (each recursive call
consumes at least three characters, so `cs.length` fuel always suffices):
one or more groups of a dot followed by two or three word characters. -/
def tldBlocksAux : Nat → List Char → Bool
  | 0, _ => false
  | fuel + 1, cs =>
    match cs with
    | '.' :: a :: b :: c :: rest =>
      (isWordChar a && isWordChar b && isWordChar c &&
        (rest.isEmpty || tldBlocksAux fuel rest))
      || (isWordChar a && isWordChar b && tldBlocksAux fuel (c :: rest))
    | ['.', a, b] => isWordChar a && isWordChar b
    | _ => false

/-- The language of `(\.\w{2,3})+`. -/
def tldBlocks (cs : List Char) : Bool := tldBlocksAux cs.length cs

/-- The language of `\w+([.-]?\w+)*(\.\w{2,3})+` — what follows the `@` in
the email regex: some split into a dotted run followed by the final
dot-groups. -/
def domainWithTld (cs : List Char) : Bool :=
  (List.range (cs.length + 1)).any fun k =>
    dottedRun (cs.take k) && tldBlocks (cs.drop k)

/-- The email validation regex of the register endpoint,
`^\w+([.-]?\w+)*@\w+([.-]?\w+)*(\.\w{2,3})+$`.  Neither side of the `@` may
itself contain an `@` (their character classes exclude it), so the string
must split at a unique `@` into a local part in the dotted-run language and
a domain part in the dotted-run-then-TLD language. -/
def emailRegexTest (s : String) : Bool :=
  match s.data.splitOn '@' with
  | [localPart, domainPart] => dottedRun localPart && domainWithTld domainPart
  | _ => false

/-- A JSON value, for the response bodies the handler builds. -/
inductive JsonValue where
  | str (s : String) : JsonValue
  | num (n : Nat) : JsonValue
  | bool (b : Bool) : JsonValue
  | arr (items : List JsonValue) : JsonValue
  | obj (fields : List (String × JsonValue)) : JsonValue

/-- First-match lookup of a key in a JSON object's field list. -/
def lookupField (key : String) : List (String × JsonValue) → Option JsonValue
  | [] => none
  | (k, v) :: rest => if k == key then some v else lookupField key rest

/-- The keys of a JSON object (empty for non-objects). -/
def objKeys : JsonValue → List String
  | JsonValue.obj fields => fields.map Prod.fst
  | _ => []

/-- Field access on a JSON object (none for non-objects). -/
def objField (key : String) : JsonValue → Option JsonValue
  | JsonValue.obj fields => lookupField key fields
  | _ => none

/-- The default `fitnessProfile` subdocument the handler stores for a new
user. -/
def defaultFitnessProfile : JsonValue :=
  JsonValue.obj
    [("fitnessLevel", JsonValue.str "beginner"),
     ("activityLevel", JsonValue.str "moderately_active"),
     ("workoutFrequency", JsonValue.num 3),
     ("goals", JsonValue.arr []),
     ("injuries", JsonValue.arr []),
     ("allergies", JsonValue.arr []),
     ("dietaryRestrictions", JsonValue.arr []),
     ("preferredWorkoutTypes", JsonValue.arr [])]

/-- A saved user document as the handler reads it back: the database id
(`_id.toString()`), the stored fields, and the model-computed
`profileCompleteness` and `createdAt`. -/
structure SavedUser where
  id : String
  email : String
  name : String
  passwordHash : BcryptHash
  fitnessProfile : JsonValue
  isEmailVerified : Bool
  profileCompleteness : Nat
  createdAt : Nat

/-- The options of `response.cookies.set`. -/
structure CookieOptions where
  httpOnly : Bool
  secure : Bool
  sameSite : String
  maxAge : Nat
  path : String
deriving DecidableEq, Repr

/-- A cookie set on a response. -/
structure SetCookie where
  name : String
  value : TokenString
  options : CookieOptions
deriving DecidableEq, Repr

/-- A route handler response: HTTP status, JSON body, cookies set. -/
structure ApiResponse where
  status : Nat
  body : JsonValue
  setCookies : List SetCookie

/-- The parsed request body of the register endpoint; absent JSON fields
destructure to `undefined` (`none`). -/
structure RegisterBody where
  email : Option String
  password : Option String
  name : Option String
  confirmPassword : Option String

/-- The effectful context of one register request, made explicit: the
`User.findOne` lookup keyed by lowercased email, the id and model-computed
fields assigned on save, the bcrypt salt drawn by the RNG, the clock and
secret used by `jwt.sign`, and the `NODE_ENV === 'production'` flag. -/
structure RegisterEnv where
  findByEmail : String → Option SavedUser
  assignedId : String
  salt : Nat
  now : Nat
  jwtSecret : String
  isProduction : Bool
  profileCompleteness : Nat
  createdAt : Nat

/-- A 400/409-style error response `{ error: msg }`. -/
def jsonError (msg : String) (status : Nat) : ApiResponse :=
  { status := status, body := JsonValue.obj [("error", JsonValue.str msg)],
    setCookies := [] }

/-- The `POST` handler of src/app/api/auth/register/route.ts: the validation
chain, the duplicate-email check, then hash, save, token issuance and the
201 response with the `auth-token` cookie. -/
def registerPOST (env : RegisterEnv) (body : RegisterBody) : ApiResponse :=
  if !truthy body.email || !truthy body.password || !truthy body.name then
    jsonError "Email, password, and name are required" 400
  else
    let email := body.email.getD ""
    let password := body.password.getD ""
    let name := body.name.getD ""
    if !emailRegexTest email then
      jsonError "Please enter a valid email address" 400
    else if jsLength password < 6 then
      jsonError "Password must be at least 6 characters long" 400
    else if truthy body.confirmPassword &&
        password != body.confirmPassword.getD "" then
      jsonError "Passwords do not match" 400
    else if jsLength (jsTrim name) < 2 then
      jsonError "Name must be at least 2 characters long" 400
    else if jsLength name > 50 then
      jsonError "Name cannot be longer than 50 characters" 400
    else
      match env.findByEmail (jsToLower email) with
      | some _ => jsonError "An account with this email already exists" 409
      | none =>
        let hashedPassword := hashPassword env.salt password
        let savedUser : SavedUser :=
          { id := env.assignedId,
            email := jsTrim (jsToLower email),
            name := jsTrim name,
            passwordHash := hashedPassword,
            fitnessProfile := defaultFitnessProfile,
            isEmailVerified := false,
            profileCompleteness := env.profileCompleteness,
            createdAt := env.createdAt }
        let token := generateToken env.jwtSecret env.now
          { userId := savedUser.id, email := savedUser.email,
            name := savedUser.name }
        let userData := JsonValue.obj
          [("id", JsonValue.str savedUser.id),
           ("email", JsonValue.str savedUser.email),
           ("name", JsonValue.str savedUser.name),
           ("fitnessProfile", savedUser.fitnessProfile),
           ("isEmailVerified", JsonValue.bool savedUser.isEmailVerified),
           ("profileCompleteness", JsonValue.num savedUser.profileCompleteness),
           ("createdAt", JsonValue.num savedUser.createdAt)]
        { status := 201,
          body := JsonValue.obj
            [("success", JsonValue.bool true),
             ("message", JsonValue.str "Account created successfully"),
             ("user", userData)],
          setCookies :=
            [{ name := "auth-token", value := token,
               options := { httpOnly := true, secure := env.isProduction,
                            sameSite := "strict", maxAge := 7 * 24 * 60 * 60,
                            path := "/" } }] }

/-- C7: a request that passes every validation (present fields, email
matching the regex, password of length at least 6, a matching or absent
confirmPassword, valid name) against a store with no user under that email
gets status 201, exactly one cookie — `auth-token`, httpOnly, secure
when in production, sameSite strict, maxAge 604800 seconds, path `/` —
holding the issued token, and a `user` object in the body with no
`password` key. -/
theorem register_success (env : RegisterEnv) (body : RegisterBody)
    (e p n : String)
    (he : body.email = some e) (hp : body.password = some p)
    (hn : body.name = some n)
    (he0 : e ≠ "") (hp0 : p ≠ "") (hn0 : n ≠ "")
    (hregex : emailRegexTest e = true)
    (hplen : 6 ≤ jsLength p)
    (hconfirm : body.confirmPassword = none ∨ body.confirmPassword = some ""
      ∨ body.confirmPassword = some p)
    (hnmin : 2 ≤ jsLength (jsTrim n))
    (hnmax : jsLength n ≤ 50)
    (hfresh : env.findByEmail (jsToLower e) = none) :
    (registerPOST env body).status = 201
    ∧ (registerPOST env body).setCookies
        = [{ name := "auth-token",
             value := generateToken env.jwtSecret env.now
               { userId := env.assignedId, email := jsTrim (jsToLower e),
                 name := jsTrim n },
             options := { httpOnly := true, secure := env.isProduction,
                          sameSite := "strict", maxAge := 604800,
                          path := "/" } }]
    ∧ ∃ u, objField "user" (registerPOST env body).body = some u
        ∧ (objKeys u).contains "password" = false := by
  rcases hconfirm with hc | hc | hc <;>
    simp [registerPOST, he, hp, hn, hc, truthy, he0, hp0, hn0, hregex,
      hfresh, Nat.not_lt.mpr hplen, Nat.not_lt.mpr hnmin,
      Nat.not_lt.mpr hnmax, objField, objKeys, lookupField]

/-- Witness environment for C7: empty user store, fixed id, salt, clock and
secret, development mode. -/
def sampleRegisterEnv : RegisterEnv :=
  { findByEmail := fun _ => none, assignedId := "id1", salt := 0, now := 0,
    jwtSecret := "s", isProduction := false, profileCompleteness := 0,
    createdAt := 0 }

/-- Witness request body for C7: the spec's scenario input. -/
def sampleRegisterBody : RegisterBody :=
  { email := some "a@b.com", password := some "Abcdef12", name := some "Jo",
    confirmPassword := none }

/-- Witness for C7 at the spec's scenario input. -/
theorem register_success_witness :
    emailRegexTest "a@b.com" = true
    ∧ ((registerPOST sampleRegisterEnv sampleRegisterBody).status = 201
    ∧ (registerPOST sampleRegisterEnv sampleRegisterBody).setCookies
        = [{ name := "auth-token",
             value := generateToken sampleRegisterEnv.jwtSecret
               sampleRegisterEnv.now
               { userId := sampleRegisterEnv.assignedId,
                 email := jsTrim (jsToLower "a@b.com"),
                 name := jsTrim "Jo" },
             options := { httpOnly := true,
                          secure := sampleRegisterEnv.isProduction,
                          sameSite := "strict", maxAge := 604800,
                          path := "/" } }]
    ∧ ∃ u, objField "user"
          (registerPOST sampleRegisterEnv sampleRegisterBody).body = some u
        ∧ (objKeys u).contains "password" = false) :=
  ⟨by decide,
   register_success sampleRegisterEnv sampleRegisterBody "a@b.com" "Abcdef12"
     "Jo" rfl rfl rfl (by decide) (by decide) (by decide) (by decide)
     (by decide) (Or.inl rfl) (by decide) (by decide) rfl⟩

end AiFitness
